import Mathlib

/-!
Verification of the login and registration handlers of the MCP OAuth
authorization server (`src/auth/handlers/auth.ts`), shallowly embedded.

The handlers are embedded as pure Lean functions over an explicit database
state.  JavaScript `Date.now()`, the freshly generated authorization code,
connection success, JWT signing and bcrypt verification are threaded in as an
explicit context.  Each run also produces a trace of store-connection and
persistence events, so that resource-release and ordering properties can be
stated.  JavaScript string truthiness (`!x` is true for `undefined` and `""`)
is modelled by `truthy` on `Option String`.
-/

namespace MCPAuth

/-- A row of the `users` table as read by `db.getUserByUsername`. -/
structure UserRec where
  id : String
  username : String
  email : String
  name : String
  password_hash : String
deriving DecidableEq, Repr

/-- A row of the OAuth applications table as read by
`db.getOAuthApplicationByClientId`: `redirect_uri` is a single
newline-separated string (split at line 107 of auth.ts), `scopes` the
client's allowed scopes. -/
structure AppRec where
  client_id : String
  redirect_uri : String
  scopes : List String
deriving DecidableEq, Repr

/-- A persisted authorization-code record: the `codeData` of auth.ts lines
96-103 together with the client and user bindings passed to
`saveAuthorizationCode`. -/
structure SavedCode where
  authorizationCode : String
  expiresAt : Nat
  redirectUri : Option String
  scope : List String
  codeChallenge : Option String
  codeChallengeMethod : Option String
  clientId : String
  userId : String
deriving DecidableEq, Repr

/-- The durable store: users, OAuth applications and saved authorization
codes. -/
structure DB where
  users : List UserRec
  apps : List AppRec
  codes : List SavedCode
deriving DecidableEq, Repr

/-- Embeds `db.getUserByUsername` (first row whose username matches). -/
def DB.getUserByUsername (db : DB) (u : String) : Option UserRec :=
  db.users.find? (fun r => r.username == u)

/-- Embeds `db.getUserByEmail`. -/
def DB.getUserByEmail (db : DB) (e : String) : Option UserRec :=
  db.users.find? (fun r => r.email == e)

/-- Embeds `db.getOAuthApplicationByClientId`. -/
def DB.getOAuthApplicationByClientId (db : DB) (cid : String) : Option AppRec :=
  db.apps.find? (fun r => r.client_id == cid)

/-- JavaScript truthiness of a possibly absent string field:
`undefined`/missing and `""` are falsy, every other string is truthy. -/
def truthy : Option String → Bool
  | none => false
  | some s => s != ""

/-- The JSON value found in the `scope` field of the decoded state blob:
absent (or null), a single string, or an array of strings. -/
inductive JScope where
  | undef : JScope
  | str : String → JScope
  | arr : List String → JScope
deriving DecidableEq, Repr

/-- Embeds line 100 of auth.ts:
`Array.isArray(scope) ? scope : (scope ? [scope] : ['read'])`. -/
def normScope : JScope → List String
  | JScope.arr l => l
  | JScope.str s => if s != "" then [s] else ["read"]
  | JScope.undef => ["read"]

/-- The object decoded from the base64 `state` parameter
(`JSON.parse(atob(state))`), with every field possibly absent. -/
structure OAuthReqInfo where
  clientId : Option String
  redirectUri : Option String
  scope : JScope
  codeChallenge : Option String
  codeChallengeMethod : Option String
  state : Option String
deriving DecidableEq, Repr

/-- The outcome of decoding the request's `state` field: falsy (absent or
empty, line 62's `if (state)`), present but not base64/JSON (line 67),
decoding to JSON `null` (so that `oauthReqInfo.clientId` at line 70 throws),
or decoding to an object. -/
inductive StateField where
  | missing : StateField
  | malformed : StateField
  | parsedNull : StateField
  | parsed : OAuthReqInfo → StateField
deriving DecidableEq, Repr

/-- The parsed JSON body of `POST /login`. -/
structure LoginBody where
  username : Option String
  password : Option String
  state : StateField
deriving DecidableEq, Repr

/-- The parsed JSON body of `POST /register`. -/
structure RegisterBody where
  username : Option String
  email : Option String
  name : Option String
  password : Option String
deriving DecidableEq, Repr

/-- Environment of one login request: current time in milliseconds, the
authorization code produced by the random generator, whether `db.connect()`
succeeds, the JWT session token produced by `sign` (none when signing
throws), and the bcrypt comparison `db.verifyPassword`. -/
structure Ctx where
  now : Nat
  freshCode : String
  connectOk : Bool
  sign : Option String
  verify : String → String → Bool

/-- Environment of one registration request: whether `db.connect()`
succeeds, the bcrypt hash function, and the id assigned to a new row. -/
structure RCtx where
  connectOk : Bool
  hash : String → String
  newId : String

/-- Observable store events of one request. -/
inductive Event where
  | connect : Event
  | disconnect : Event
  | saveCode : String → Event
  | createUser : Event
deriving DecidableEq, Repr

/-- An HTTP response: a JSON error/message body with a status, the OAuth
success body `{redirectTo: url}` (url split into its base and the query
parameters appended by `searchParams.set`), or the direct-login success
body with its session cookie. -/
inductive Response where
  | json : Nat → String → Response
  | oauthRedirect : String → List (String × String) → Response
  | directLogin : UserRec → String → Response
deriving DecidableEq, Repr

/-- The full observable outcome of one request. -/
structure Outcome where
  response : Response
  db : DB
  trace : List Event
deriving Repr

/-- The protocol error taxonomy of the spec (RFC 6749 §5.2 subset used by
the Code Issuer). -/
inductive OAuthError where
  | InvalidRequest : OAuthError
  | InvalidScope : OAuthError
deriving DecidableEq, Repr

/-- The `codeData` object built at auth.ts lines 96-103. -/
structure CodeData where
  authorizationCode : String
  expiresAt : Nat
  redirectUri : Option String
  scope : List String
  codeChallenge : Option String
  codeChallengeMethod : Option String
deriving DecidableEq, Repr

/-- The `clientData` object built at auth.ts lines 105-110. -/
structure ClientData where
  id : String
  redirectUris : List String
  grants : List String
  scope : List String
deriving DecidableEq, Repr

/-- The `userData` object built at auth.ts lines 112-117. -/
structure UserData where
  id : String
  username : String
  email : String
  name : String
deriving DecidableEq, Repr

/-- Splits a character list at every occurrence of `sep`, keeping empty
segments — the semantics of JavaScript `String.prototype.split` with a
single-character separator. -/
def splitChars (sep : Char) : List Char → List (List Char)
  | [] => [[]]
  | c :: rest =>
    match splitChars sep rest with
    | [] => [[]]
    | w :: ws => if c = sep then [] :: w :: ws else (c :: w) :: ws

/-- Embeds `application.redirect_uri.split('\n')` (auth.ts line 107). -/
def splitNewline (s : String) : List String :=
  (splitChars (Char.ofNat 10) s.data).map (fun cs => String.mk cs)

/-- Embeds auth.ts lines 96-103: `expiresAt` is
`Date.now() + 10 * 60 * 1000` and `scope` is the normalisation of the
state blob's scope field. -/
def buildCodeData (now : Nat) (code : String) (o : OAuthReqInfo) : CodeData :=
  { authorizationCode := code
    expiresAt := now + 10 * 60 * 1000
    redirectUri := o.redirectUri
    scope := normScope o.scope
    codeChallenge := o.codeChallenge
    codeChallengeMethod := o.codeChallengeMethod }

/-- Embeds auth.ts lines 105-110, with `redirectUris` the newline-split of
the stored `redirect_uri` column. -/
def buildClientData (o : OAuthReqInfo) (app : AppRec) : ClientData :=
  { id := (o.clientId).getD ""
    redirectUris := splitNewline app.redirect_uri
    grants := ["authorization_code", "refresh_token"]
    scope := app.scopes }

/-- Embeds auth.ts lines 112-117. -/
def buildUserData (user : UserRec) : UserData :=
  { id := user.id, username := user.username
    email := user.email, name := user.name }

/-- The Code Issuer's redirect-URI check: the presented `redirectUri` must
exactly match one registered entry; an absent one matches nothing. -/
def redirectUriAllowed (cd : CodeData) (cl : ClientData) : Bool :=
  match cd.redirectUri with
  | some u => (cl.redirectUris).contains u
  | none => false

/-- The Code Issuer's scope check: requested scope ⊆ allowed scopes. -/
def scopeAllowed (cd : CodeData) (cl : ClientData) : Bool :=
  (cd.scope).all (fun s => (cl.scope).contains s)

/-- The persisted record assembled from the code, client and user data. -/
def savedRecord (cd : CodeData) (cl : ClientData) (ud : UserData) : SavedCode :=
  { authorizationCode := cd.authorizationCode
    expiresAt := cd.expiresAt
    redirectUri := cd.redirectUri
    scope := cd.scope
    codeChallenge := cd.codeChallenge
    codeChallengeMethod := cd.codeChallengeMethod
    clientId := cl.id
    userId := ud.id }

/-- Modelled from the spec: `OAuth2Model.saveAuthorizationCode`
(src/auth/oauth2.ts) is not under src/; §4.2 Code Issuer: validates
`redirectUri` ∈ client.redirectUris (else fails `InvalidRequest`), then
requested `scope` ⊆ client.allowedScopes (else fails `InvalidScope`), and
persists the record via the Store before returning. -/
def saveAuthorizationCode (cd : CodeData) (cl : ClientData) (ud : UserData)
    (db : DB) : Except OAuthError DB :=
  if redirectUriAllowed cd cl then
    if scopeAllowed cd cl then
      Except.ok { db with codes := db.codes ++ [savedRecord cd cl ud] }
    else
      Except.error OAuthError.InvalidScope
  else
    Except.error OAuthError.InvalidRequest

/-- Scans for the first occurrence of `://` and returns what follows it. -/
def afterSchemeSep : List Char → Option (List Char)
  | ':' :: '/' :: '/' :: rest => some rest
  | _ :: rest => afterSchemeSep rest
  | [] => none

/-- Model of WHATWG URL parsing as used by `new URL(...)` at line 123: a
string parses iff it has a nonempty scheme followed by `://` and a nonempty
remainder; parsing failure throws in the source. -/
def isValidURL (s : String) : Bool :=
  match s.data with
  | [] => false
  | ':' :: _ => false
  | _ :: rest =>
    match afterSchemeSep rest with
    | some (_ :: _) => true
    | _ => false

/-- The query parameters appended at auth.ts lines 124-127: always the
code, and the decoded blob's `state` only when truthy. -/
def stateParams (o : OAuthReqInfo) : List (String × String) :=
  match o.state with
  | some s => if s != "" then [("state", s)] else []
  | none => []

/-- The body of the login handler between `db.connect()` and the `finally`
(auth.ts lines 48-159): user lookup, password check, then either the OAuth
branch (state truthy) or direct session login.  Exceptions thrown inside
(null state blob, failed save, invalid redirect URL) surface as the outer
catch's 500 response after the `finally` has run. -/
def loginInner (ctx : Ctx) (body : LoginBody) (db : DB) :
    Response × DB × List Event :=
  match db.getUserByUsername ((body.username).getD "") with
  | none => (Response.json 401 "Invalid username or password", db, [])
  | some user =>
    if !(ctx.verify ((body.password).getD "") user.password_hash) then
      (Response.json 401 "Invalid username or password", db, [])
    else
      match body.state with
      | StateField.missing =>
        match ctx.sign with
        | some tok => (Response.directLogin user tok, db, [])
        | none => (Response.json 500 "Failed to create session", db, [])
      | StateField.malformed =>
        (Response.json 400 "Invalid state parameter", db, [])
      | StateField.parsedNull =>
        (Response.json 500 "Internal server error", db, [])
      | StateField.parsed o =>
        if !(truthy o.clientId) then
          (Response.json 400 "Invalid state - missing client ID", db, [])
        else
          match db.getOAuthApplicationByClientId ((o.clientId).getD "") with
          | none => (Response.json 400 "Invalid client", db, [])
          | some app =>
            match saveAuthorizationCode (buildCodeData ctx.now ctx.freshCode o)
                (buildClientData o app) (buildUserData user) db with
            | Except.error _ =>
              (Response.json 500 "Internal server error", db, [])
            | Except.ok db2 =>
              match o.redirectUri with
              | none =>
                (Response.json 500 "Internal server error", db2,
                  [Event.saveCode ctx.freshCode])
              | some uri =>
                if isValidURL uri then
                  (Response.oauthRedirect uri
                      (("code", ctx.freshCode) :: stateParams o), db2,
                    [Event.saveCode ctx.freshCode])
                else
                  (Response.json 500 "Internal server error", db2,
                    [Event.saveCode ctx.freshCode])

/-- Embeds `authApp.post("/login")` (auth.ts lines 36-167): field
presence check, `db.connect()`, the inner body, and the `finally` that
always runs `db.disconnect()` before any response or rethrown error leaves
the handler. -/
def login (ctx : Ctx) (body : LoginBody) (db : DB) : Outcome :=
  if !(truthy body.username && truthy body.password) then
    { response := Response.json 400 "Username and password are required"
      db := db, trace := [] }
  else if !ctx.connectOk then
    { response := Response.json 500 "Internal server error"
      db := db, trace := [] }
  else
    { response := (loginInner ctx body db).1
      db := (loginInner ctx body db).2.1
      trace := Event.connect ::
        ((loginInner ctx body db).2.2 ++ [Event.disconnect]) }

/-- The body of the register handler between `db.connect()` and the
`finally` (auth.ts lines 186-201): duplicate checks, then user creation. -/
def registerInner (ctx : RCtx) (body : RegisterBody) (db : DB) :
    Response × DB × List Event :=
  match db.getUserByUsername ((body.username).getD "") with
  | some _ => (Response.json 400 "Username already exists", db, [])
  | none =>
    match db.getUserByEmail ((body.email).getD "") with
    | some _ => (Response.json 400 "Email already exists", db, [])
    | none =>
      let newUser : UserRec :=
        { id := ctx.newId
          username := (body.username).getD ""
          email := (body.email).getD ""
          name := (body.name).getD ""
          password_hash := ctx.hash ((body.password).getD "") }
      (Response.json 200 "User created successfully",
        { db with users := db.users ++ [newUser] }, [Event.createUser])

/-- Embeds `authApp.post("/register")` (auth.ts lines 170-209): presence
check on the four fields, password length check, `db.connect()`, the inner
body, and the `finally` that always runs `db.disconnect()`. -/
def register (ctx : RCtx) (body : RegisterBody) (db : DB) : Outcome :=
  if !(truthy body.username && truthy body.email &&
        truthy body.name && truthy body.password) then
    { response := Response.json 400 "All fields are required"
      db := db, trace := [] }
  else if ((body.password).getD "").length < 6 then
    { response := Response.json 400 "Password must be at least 6 characters long"
      db := db, trace := [] }
  else if !ctx.connectOk then
    { response := Response.json 500 "Internal server error"
      db := db, trace := [] }
  else
    { response := (registerInner ctx body db).1
      db := (registerInner ctx body db).2.1
      trace := Event.connect ::
        ((registerInner ctx body db).2.2 ++ [Event.disconnect]) }

/-- A response is a success iff it is not a JSON error body (status ≥ 400). -/
def isSuccess : Response → Bool
  | Response.json s _ => decide (s < 400)
  | Response.oauthRedirect _ _ => true
  | Response.directLogin _ _ => true

/-- Checks that a nonempty trace tail consists of non-connection events
closed by exactly one final `disconnect`. -/
def scopedTail : List Event → Bool
  | [Event.disconnect] => true
  | Event.connect :: _ => false
  | Event.disconnect :: _ => false
  | _ :: evs => scopedTail evs
  | [] => false

/-- A trace is scoped iff it opens no connection at all, or opens exactly
one and closes it as its last action. -/
def scopedTrace : List Event → Bool
  | [] => true
  | Event.connect :: evs => scopedTail evs
  | _ => false

/-! Sample data used to witness the theorems on concrete inputs. -/

/-- A sample stored user. -/
def sampleUser : UserRec :=
  { id := "u1", username := "alice", email := "alice@example.com"
    name := "Alice", password_hash := "secret" }

/-- A sample registered OAuth application with two redirect URIs. -/
def sampleApp : AppRec :=
  { client_id := "c1"
    redirect_uri := "https://app.example/cb\nhttps://app.example/cb2"
    scopes := ["read", "write"] }

/-- A sample store holding the sample user and application. -/
def sampleDB : DB := { users := [sampleUser], apps := [sampleApp], codes := [] }

/-- A sample request environment. -/
def sampleCtx : Ctx :=
  { now := 1000, freshCode := "code-1", connectOk := true
    sign := some "tok", verify := fun p h => p == h }

/-- A sample decoded state blob naming the sample client, with an
empty-string inner state. -/
def sampleInfo : OAuthReqInfo :=
  { clientId := some "c1", redirectUri := some "https://app.example/cb"
    scope := JScope.undef, codeChallenge := none
    codeChallengeMethod := none, state := some "" }

/-- A sample login body entering the OAuth branch. -/
def sampleBody : LoginBody :=
  { username := some "alice", password := some "secret"
    state := StateField.parsed sampleInfo }

/-! Helper lemmas. -/

/-- Success characterization of the modelled Code Issuer persistence. -/
theorem saveAuthorizationCode_ok_iff (cd : CodeData) (cl : ClientData)
    (ud : UserData) (db db2 : DB) :
    saveAuthorizationCode cd cl ud db = Except.ok db2 ↔
      redirectUriAllowed cd cl = true ∧ scopeAllowed cd cl = true ∧
      db2 = { db with codes := db.codes ++ [savedRecord cd cl ud] } := by
  unfold saveAuthorizationCode
  by_cases h1 : redirectUriAllowed cd cl = true
  · by_cases h2 : scopeAllowed cd cl = true
    · simp [h1, h2, eq_comm]
    · simp [h1, h2]
  · simp [h1]

/-- Failure characterization of the modelled Code Issuer persistence. -/
theorem saveAuthorizationCode_error_iff (cd : CodeData) (cl : ClientData)
    (ud : UserData) (db : DB) (e : OAuthError) :
    saveAuthorizationCode cd cl ud db = Except.error e ↔
      (redirectUriAllowed cd cl = false ∧ e = OAuthError.InvalidRequest) ∨
      (redirectUriAllowed cd cl = true ∧ scopeAllowed cd cl = false ∧
        e = OAuthError.InvalidScope) := by
  unfold saveAuthorizationCode
  by_cases h1 : redirectUriAllowed cd cl = true
  · by_cases h2 : scopeAllowed cd cl = true
    · simp [h1, h2]
    · have h2f : scopeAllowed cd cl = false := by simpa using h2
      simp [h1, h2f]
      exact eq_comm
  · have h1f : redirectUriAllowed cd cl = false := by simpa using h1
    simp [h1f]
    exact eq_comm

/-- Every query parameter appended by `stateParams` has key `state`. -/
theorem stateParams_key (o : OAuthReqInfo) :
    ∀ p ∈ stateParams o, p.1 = "state" := by
  unfold stateParams
  cases o.state with
  | none => simp
  | some s =>
    by_cases h : (s != "") = true <;> simp [h]

/-- Membership in the appended state parameters. -/
theorem mem_stateParams (o : OAuthReqInfo) (s : String) :
    ("state", s) ∈ stateParams o ↔ o.state = some s ∧ s ≠ "" := by
  unfold stateParams
  cases hs : o.state with
  | none => simp
  | some t =>
    rcases eq_or_ne t "" with ht | ht
    · subst ht
      simp
      intro he
      exact he.symm
    · simp [ht]
      constructor
      · intro he
        exact ⟨he.symm, he ▸ ht⟩
      · rintro ⟨he, h ⟩
        exact he.symm

/-- The redirect-URI check succeeds exactly on a presented URI that is a
member of the registered list. -/
theorem redirectUriAllowed_iff (cd : CodeData) (cl : ClientData) :
    redirectUriAllowed cd cl = true ↔
      ∃ u, cd.redirectUri = some u ∧ u ∈ cl.redirectUris := by
  unfold redirectUriAllowed
  cases cd.redirectUri with
  | none => simp
  | some u => simp [List.contains, List.elem_iff]

/-- The scope check succeeds exactly when every requested scope is an
allowed scope. -/
theorem scopeAllowed_iff (cd : CodeData) (cl : ClientData) :
    scopeAllowed cd cl = true ↔ ∀ s ∈ cd.scope, s ∈ cl.scope := by
  unfold scopeAllowed
  simp [List.contains, List.all_eq_true, List.elem_iff]

/-- Branch characterization of the login handler's inner body: either it
fails (store untouched, no redirect response, no persistence event), or the
full OAuth issuance path ran — the state decoded, the client was found, the
user authenticated, the Code Issuer's checks passed, exactly the built
record was appended, and the response is the redirect (or the 500
propagated from an unparsable redirect URL). -/
theorem loginInner_shape (ctx : Ctx) (body : LoginBody) (db : DB)
    (resp : Response) (dbf : DB) (evs : List Event)
    (h : loginInner ctx body db = (resp, dbf, evs)) :
    (dbf = db ∧ (∀ base ps, resp ≠ Response.oauthRedirect base ps) ∧
      evs = []) ∨
    (∃ o app user,
      body.state = StateField.parsed o ∧
      truthy o.clientId = true ∧
      db.getOAuthApplicationByClientId ((o.clientId).getD "") = some app ∧
      db.getUserByUsername ((body.username).getD "") = some user ∧
      ctx.verify ((body.password).getD "") user.password_hash = true ∧
      redirectUriAllowed (buildCodeData ctx.now ctx.freshCode o)
        (buildClientData o app) = true ∧
      scopeAllowed (buildCodeData ctx.now ctx.freshCode o)
        (buildClientData o app) = true ∧
      dbf = { db with codes := db.codes ++
          [savedRecord (buildCodeData ctx.now ctx.freshCode o)
            (buildClientData o app) (buildUserData user)] } ∧
      evs = [Event.saveCode ctx.freshCode] ∧
      ((∃ u, o.redirectUri = some u ∧ isValidURL u = true ∧
          resp = Response.oauthRedirect u
            (("code", ctx.freshCode) :: stateParams o)) ∨
       (resp = Response.json 500 "Internal server error" ∧
        ∀ u, o.redirectUri = some u → isValidURL u = false))) := by
  unfold loginInner at h
  split at h
  · simp only [Prod.mk.injEq] at h
    obtain ⟨rfl, rfl, rfl⟩ := h
    exact Or.inl ⟨rfl, by simp, rfl⟩
  · rename_i user hu
    split at h
    · simp only [Prod.mk.injEq] at h
      obtain ⟨rfl, rfl, rfl⟩ := h
      exact Or.inl ⟨rfl, by simp, rfl⟩
    · rename_i hvb
      have hv : ctx.verify ((body.password).getD "") user.password_hash = true := by
        simpa using hvb
      split at h
      · -- direct login, state missing
        split at h
        · simp only [Prod.mk.injEq] at h
          obtain ⟨rfl, rfl, rfl⟩ := h
          exact Or.inl ⟨rfl, by simp, rfl⟩
        · simp only [Prod.mk.injEq] at h
          obtain ⟨rfl, rfl, rfl⟩ := h
          exact Or.inl ⟨rfl, by simp, rfl⟩
      · -- malformed state
        simp only [Prod.mk.injEq] at h
        obtain ⟨rfl, rfl, rfl⟩ := h
        exact Or.inl ⟨rfl, by simp, rfl⟩
      · -- state decoded to null
        simp only [Prod.mk.injEq] at h
        obtain ⟨rfl, rfl, rfl⟩ := h
        exact Or.inl ⟨rfl, by simp, rfl⟩
      · -- OAuth branch
        rename_i o hstate
        split at h
        · simp only [Prod.mk.injEq] at h
          obtain ⟨rfl, rfl, rfl⟩ := h
          exact Or.inl ⟨rfl, by simp, rfl⟩
        · rename_i hcb
          have hcid : truthy o.clientId = true := by simpa using hcb
          split at h
          · simp only [Prod.mk.injEq] at h
            obtain ⟨rfl, rfl, rfl⟩ := h
            exact Or.inl ⟨rfl, by simp, rfl⟩
          · rename_i app happ
            split at h
            · -- save failed
              simp only [Prod.mk.injEq] at h
              obtain ⟨rfl, rfl, rfl⟩ := h
              exact Or.inl ⟨rfl, by simp, rfl⟩
            · rename_i db2 hsave
              obtain ⟨hredir, hscope, rfl⟩ :=
                (saveAuthorizationCode_ok_iff _ _ _ _ _).mp hsave
              split at h
              · -- redirect URI absent: new URL(undefined) throws
                rename_i hruri
                simp only [Prod.mk.injEq] at h
                obtain ⟨rfl, rfl, rfl⟩ := h
                refine Or.inr ⟨o, app, user, hstate, hcid, happ, hu, hv,
                  hredir, hscope, rfl, rfl, Or.inr ⟨rfl, ?_⟩⟩
                intro u hu'
                rw [hruri] at hu'
                cases hu'
              · rename_i uri hruri
                split at h
                · -- valid redirect URL: success
                  rename_i hvalid
                  simp only [Prod.mk.injEq] at h
                  obtain ⟨rfl, rfl, rfl⟩ := h
                  exact Or.inr ⟨o, app, user, hstate, hcid, happ, hu, hv,
                    hredir, hscope, rfl, rfl,
                    Or.inl ⟨uri, hruri, hvalid, rfl⟩⟩
                · -- invalid redirect URL: new URL throws after persistence
                  rename_i hvalid
                  simp only [Prod.mk.injEq] at h
                  obtain ⟨rfl, rfl, rfl⟩ := h
                  refine Or.inr ⟨o, app, user, hstate, hcid, happ, hu, hv,
                    hredir, hscope, rfl, rfl, Or.inr ⟨rfl, ?_⟩⟩
                  intro u hu'
                  rw [hruri] at hu'
                  cases hu'
                  simpa using hvalid

/-- Branch characterization of the whole login handler, including the
connect/disconnect wrapper. -/
theorem login_shape (ctx : Ctx) (body : LoginBody) (db : DB) :
    ((login ctx body db).db = db ∧
      (∀ base ps,
        (login ctx body db).response ≠ Response.oauthRedirect base ps) ∧
      (∀ c, Event.saveCode c ∉ (login ctx body db).trace)) ∨
    (∃ o app user,
      body.state = StateField.parsed o ∧
      truthy o.clientId = true ∧
      db.getOAuthApplicationByClientId ((o.clientId).getD "") = some app ∧
      db.getUserByUsername ((body.username).getD "") = some user ∧
      ctx.verify ((body.password).getD "") user.password_hash = true ∧
      redirectUriAllowed (buildCodeData ctx.now ctx.freshCode o)
        (buildClientData o app) = true ∧
      scopeAllowed (buildCodeData ctx.now ctx.freshCode o)
        (buildClientData o app) = true ∧
      (login ctx body db).db = { db with codes := db.codes ++
          [savedRecord (buildCodeData ctx.now ctx.freshCode o)
            (buildClientData o app) (buildUserData user)] } ∧
      (login ctx body db).trace =
        [Event.connect, Event.saveCode ctx.freshCode, Event.disconnect] ∧
      ((∃ u, o.redirectUri = some u ∧ isValidURL u = true ∧
          (login ctx body db).response = Response.oauthRedirect u
            (("code", ctx.freshCode) :: stateParams o)) ∨
       ((login ctx body db).response =
          Response.json 500 "Internal server error" ∧
        ∀ u, o.redirectUri = some u → isValidURL u = false))) := by
  by_cases hb : (truthy body.username && truthy body.password) = true
  · by_cases hc : ctx.connectOk = true
    · rcases hLI : loginInner ctx body db with ⟨resp, dbf, evs⟩
      have hL : login ctx body db =
          { response := resp, db := dbf
            trace := Event.connect :: (evs ++ [Event.disconnect]) } := by
        unfold login
        simp [hb, hc, hLI]
      rw [hL]
      rcases loginInner_shape ctx body db resp dbf evs hLI with
        ⟨rfl, hnr, rfl⟩ |
        ⟨o, app, user, h1, h2, h3, h4, h5, h6, h7, hdb, hevs, hresp⟩
      · exact Or.inl ⟨rfl, hnr, by simp⟩
      · refine Or.inr ⟨o, app, user, h1, h2, h3, h4, h5, h6, h7, hdb, ?_, hresp⟩
        rw [hevs]
        rfl
    · have hL : login ctx body db =
          { response := Response.json 500 "Internal server error"
            db := db, trace := [] } := by
        unfold login
        simp [hb, hc]
      rw [hL]
      exact Or.inl ⟨rfl, by simp, by simp⟩
  · have hL : login ctx body db =
        { response := Response.json 400 "Username and password are required"
          db := db, trace := [] } := by
      unfold login
      simp [hb]
    rw [hL]
    exact Or.inl ⟨rfl, by simp, by simp⟩

/-- A decoded state blob presenting a redirect URI not registered for the
sample client. -/
def sampleInfoBadUri : OAuthReqInfo :=
  { sampleInfo with redirectUri := some "https://evil.example/cb" }

/-- A login body presenting the unregistered redirect URI. -/
def sampleBodyBadUri : LoginBody :=
  { sampleBody with state := StateField.parsed sampleInfoBadUri }

/-- A decoded state blob requesting a scope outside the client's allowed
scopes. -/
def sampleInfoBadScope : OAuthReqInfo :=
  { sampleInfo with scope := JScope.arr ["admin"] }

/-- A login body requesting the disallowed scope. -/
def sampleBodyBadScope : LoginBody :=
  { sampleBody with state := StateField.parsed sampleInfoBadScope }

/-- Claim C1: for an authorization request in the login flow with an OAuth
state naming an existing client, if the presented redirect URI is not a
member of the client's registered redirect URIs then no authorization code
is persisted and the Code Issuer's persistence step fails with
`InvalidRequest`; hence a code is issued only for a registered redirect
URI. -/
theorem c1_code_issued_only_for_registered_redirect_uri
    (ctx : Ctx) (body : LoginBody) (db : DB) (o : OAuthReqInfo) (app : AppRec)
    (hstate : body.state = StateField.parsed o)
    (happ : db.getOAuthApplicationByClientId ((o.clientId).getD "") = some app)
    (hmem : redirectUriAllowed (buildCodeData ctx.now ctx.freshCode o)
      (buildClientData o app) = false) :
    (login ctx body db).db.codes = db.codes ∧
    ∀ ud, saveAuthorizationCode (buildCodeData ctx.now ctx.freshCode o)
      (buildClientData o app) ud db =
        Except.error OAuthError.InvalidRequest := by
  constructor
  · rcases login_shape ctx body db with ⟨hdb, _, _⟩ |
      ⟨o', app', user, h1, h2, h3, h4, h5, h6, h7, hdb, htr, hresp⟩
    · rw [hdb]
    · rw [hstate] at h1
      injection h1 with ho
      subst ho
      rw [happ] at h3
      injection h3 with ha
      subst ha
      simp [h6] at hmem
  · intro ud
    unfold saveAuthorizationCode
    simp [hmem]

/-- Witness for C1 at the sample store: the unregistered redirect URI
`https://evil.example/cb` persists nothing and fails `InvalidRequest`. -/
theorem c1_code_issued_only_for_registered_redirect_uri_witness :
    (login sampleCtx sampleBodyBadUri sampleDB).db.codes = sampleDB.codes ∧
    saveAuthorizationCode
      (buildCodeData sampleCtx.now sampleCtx.freshCode sampleInfoBadUri)
      (buildClientData sampleInfoBadUri sampleApp)
      (buildUserData sampleUser) sampleDB =
        Except.error OAuthError.InvalidRequest := by
  have h := c1_code_issued_only_for_registered_redirect_uri
    sampleCtx sampleBodyBadUri sampleDB sampleInfoBadUri sampleApp
    rfl (by decide) (by decide)
  exact ⟨h.1, h.2 (buildUserData sampleUser)⟩

/-- Claim C2: for an authorization-code issuance in the login flow, if the
presented redirect URI is registered but the requested scope is not a
subset of the client's allowed scopes, then no authorization code is
persisted and the Code Issuer's persistence step fails with
`InvalidScope`. -/
theorem c2_code_issued_only_for_allowed_scope
    (ctx : Ctx) (body : LoginBody) (db : DB) (o : OAuthReqInfo) (app : AppRec)
    (hstate : body.state = StateField.parsed o)
    (happ : db.getOAuthApplicationByClientId ((o.clientId).getD "") = some app)
    (hredir : redirectUriAllowed (buildCodeData ctx.now ctx.freshCode o)
      (buildClientData o app) = true)
    (hscope : scopeAllowed (buildCodeData ctx.now ctx.freshCode o)
      (buildClientData o app) = false) :
    (login ctx body db).db.codes = db.codes ∧
    ∀ ud, saveAuthorizationCode (buildCodeData ctx.now ctx.freshCode o)
      (buildClientData o app) ud db =
        Except.error OAuthError.InvalidScope := by
  constructor
  · rcases login_shape ctx body db with ⟨hdb, _, _⟩ |
      ⟨o', app', user, h1, h2, h3, h4, h5, h6, h7, hdb, htr, hresp⟩
    · rw [hdb]
    · rw [hstate] at h1
      injection h1 with ho
      subst ho
      rw [happ] at h3
      injection h3 with ha
      subst ha
      simp [h7] at hscope
  · intro ud
    unfold saveAuthorizationCode
    simp [hredir, hscope]

/-- Witness for C2 at the sample store: the requested scope `["admin"]` is
outside the allowed `["read", "write"]`, persists nothing and fails
`InvalidScope`. -/
theorem c2_code_issued_only_for_allowed_scope_witness :
    (login sampleCtx sampleBodyBadScope sampleDB).db.codes = sampleDB.codes ∧
    saveAuthorizationCode
      (buildCodeData sampleCtx.now sampleCtx.freshCode sampleInfoBadScope)
      (buildClientData sampleInfoBadScope sampleApp)
      (buildUserData sampleUser) sampleDB =
        Except.error OAuthError.InvalidScope := by
  have h := c2_code_issued_only_for_allowed_scope
    sampleCtx sampleBodyBadScope sampleDB sampleInfoBadScope sampleApp
    rfl (by decide) (by decide) (by decide)
  exact ⟨h.1, h.2 (buildUserData sampleUser)⟩

/-- Claim C4: every authorization-code record persisted by a login request
has `expiresAt` equal to the request's current time plus exactly ten
minutes, and the `expiresAt` computed by `buildCodeData` is independent of
everything in the request except the current time. -/
theorem c4_expiry_is_now_plus_ten_minutes
    (ctx : Ctx) (body : LoginBody) (db : DB) :
    (∀ rec, rec ∈ (login ctx body db).db.codes → rec ∉ db.codes →
      rec.expiresAt = ctx.now + 10 * 60 * 1000) ∧
    (∀ now code code' o o', (buildCodeData now code o).expiresAt =
      (buildCodeData now code' o').expiresAt) := by
  constructor
  · intro rec hmem hnew
    rcases login_shape ctx body db with ⟨hdb, _, _⟩ |
      ⟨o, app, user, h1, h2, h3, h4, h5, h6, h7, hdb, htr, hresp⟩
    · rw [hdb] at hmem
      exact absurd hmem hnew
    · rw [hdb] at hmem
      rcases List.mem_append.mp hmem with hold | hnewrec
      · exact absurd hold hnew
      · rw [List.mem_singleton.mp hnewrec]
        rfl
  · intro now code code' o o'
    rfl

/-- Witness for C4: the concrete record persisted for the sample request
expires at `1000 + 10 * 60 * 1000`. -/
theorem c4_expiry_is_now_plus_ten_minutes_witness :
    ({ authorizationCode := "code-1", expiresAt := 601000
       redirectUri := some "https://app.example/cb", scope := ["read"]
       codeChallenge := none, codeChallengeMethod := none
       clientId := "c1", userId := "u1" } : SavedCode).expiresAt =
      sampleCtx.now + 10 * 60 * 1000 :=
  (c4_expiry_is_now_plus_ten_minutes sampleCtx sampleBody sampleDB).1
    { authorizationCode := "code-1", expiresAt := 601000
      redirectUri := some "https://app.example/cb", scope := ["read"]
      codeChallenge := none, codeChallengeMethod := none
      clientId := "c1", userId := "u1" }
    (by decide) (by decide)

/-- Claim C5: when the decoded OAuth request supplies no scope, every
authorization-code record persisted for it carries the default scope
`["read"]`. -/
theorem c5_absent_scope_defaults_to_read
    (ctx : Ctx) (body : LoginBody) (db : DB) (o : OAuthReqInfo)
    (hstate : body.state = StateField.parsed o)
    (hscope : o.scope = JScope.undef) :
    ∀ rec, rec ∈ (login ctx body db).db.codes → rec ∉ db.codes →
      rec.scope = ["read"] := by
  intro rec hmem hnew
  rcases login_shape ctx body db with ⟨hdb, _, _⟩ |
    ⟨o', app, user, h1, h2, h3, h4, h5, h6, h7, hdb, htr, hresp⟩
  · rw [hdb] at hmem
    exact absurd hmem hnew
  · rw [hstate] at h1
    injection h1 with ho
    subst ho
    rw [hdb] at hmem
    rcases List.mem_append.mp hmem with hold | hnewrec
    · exact absurd hold hnew
    · rw [List.mem_singleton.mp hnewrec]
      show normScope o.scope = ["read"]
      rw [hscope]
      rfl

/-- Witness for C5: the sample request supplies no scope and the persisted
record's scope is `["read"]`. -/
theorem c5_absent_scope_defaults_to_read_witness :
    ({ authorizationCode := "code-1", expiresAt := 601000
       redirectUri := some "https://app.example/cb", scope := ["read"]
       codeChallenge := none, codeChallengeMethod := none
       clientId := "c1", userId := "u1" } : SavedCode).scope = ["read"] :=
  c5_absent_scope_defaults_to_read sampleCtx sampleBody sampleDB sampleInfo
    rfl rfl
    { authorizationCode := "code-1", expiresAt := 601000
      redirectUri := some "https://app.example/cb", scope := ["read"]
      codeChallenge := none, codeChallengeMethod := none
      clientId := "c1", userId := "u1" }
    (by decide) (by decide)

/-- Claim C6: whenever the login handler's response carries an
authorization code in its redirect parameters, a persistence event for that
code is in the request's trace and the final store contains a record with
that code value — persistence happens before the code is released. -/
theorem c6_code_released_only_after_persistence
    (ctx : Ctx) (body : LoginBody) (db : DB) (base : String)
    (ps : List (String × String)) (c : String)
    (hresp : (login ctx body db).response = Response.oauthRedirect base ps)
    (hcode : ("code", c) ∈ ps) :
    Event.saveCode c ∈ (login ctx body db).trace ∧
    ∃ rec, rec ∈ (login ctx body db).db.codes ∧
      rec.authorizationCode = c := by
  rcases login_shape ctx body db with ⟨_, hnr, _⟩ |
    ⟨o, app, user, h1, h2, h3, h4, h5, h6, h7, hdb, htr, hresp'⟩
  · exact absurd hresp (hnr base ps)
  · rcases hresp' with ⟨u, hru, hvu, he⟩ | ⟨he, _⟩
    · have hbp := he.symm.trans hresp
      injection hbp with hu hps
      subst hu
      subst hps
      rcases List.mem_cons.mp hcode with heq | hmemtail
      · have hcf : c = ctx.freshCode := by
          have := congrArg Prod.snd heq
          simpa using this
        subst hcf
        constructor
        · rw [htr]
          simp
        · refine ⟨savedRecord (buildCodeData ctx.now ctx.freshCode o)
            (buildClientData o app) (buildUserData user), ?_, rfl⟩
          rw [hdb]
          simp
      · have := stateParams_key o _ hmemtail
        simp at this
    · rw [he] at hresp
      cases hresp

/-- Witness for C6: the sample successful request's code `code-1` is in the
trace's persistence event and in the final store. -/
theorem c6_code_released_only_after_persistence_witness :
    Event.saveCode "code-1" ∈ (login sampleCtx sampleBody sampleDB).trace ∧
    ∃ rec, rec ∈ (login sampleCtx sampleBody sampleDB).db.codes ∧
      rec.authorizationCode = "code-1" :=
  c6_code_released_only_after_persistence sampleCtx sampleBody sampleDB
    "https://app.example/cb" [("code", "code-1")] "code-1"
    (by decide) (by decide)

/-- Counterexample to claim C7 as stated: the sample request decodes to an
OAuth request whose `state` field is supplied (the empty string), the
request succeeds with a redirect carrying the code, yet no `state` query
parameter is attached — the supplied state parameter is not echoed. -/
theorem c7_counterexample_empty_state_not_echoed :
    sampleInfo.state = some "" ∧
    (login sampleCtx sampleBody sampleDB).response =
      Response.oauthRedirect "https://app.example/cb" [("code", "code-1")] ∧
    ∀ s, ("state", s) ∉ [(("code" : String), ("code-1" : String))] := by
  refine ⟨rfl, by decide, ?_⟩
  intro s hs
  simp at hs

/-- Claim C7 as amended: on a successful authorization request the caller
is redirected to the presented redirect URI with the issued code attached
as the `code` query parameter, and the decoded request's `state` is echoed
back as the `state` query parameter exactly when it is present and
non-empty. -/
theorem c7_redirect_carries_code_and_nonempty_state
    (ctx : Ctx) (body : LoginBody) (db : DB) (o : OAuthReqInfo)
    (base : String) (ps : List (String × String))
    (hstate : body.state = StateField.parsed o)
    (hresp : (login ctx body db).response = Response.oauthRedirect base ps) :
    o.redirectUri = some base ∧
    ("code", ctx.freshCode) ∈ ps ∧
    (∀ s, o.state = some s → s ≠ "" → ("state", s) ∈ ps) ∧
    (∀ s, ("state", s) ∈ ps → o.state = some s ∧ s ≠ "") := by
  rcases login_shape ctx body db with ⟨_, hnr, _⟩ |
    ⟨o', app, user, h1, h2, h3, h4, h5, h6, h7, hdb, htr, hresp'⟩
  · exact absurd hresp (hnr base ps)
  · rw [hstate] at h1
    injection h1 with ho
    subst ho
    rcases hresp' with ⟨u, hru, hvu, he⟩ | ⟨he, _⟩
    · have hbp := he.symm.trans hresp
      injection hbp with hu hps
      subst hu
      subst hps
      refine ⟨hru, List.mem_cons_self _ _, ?_, ?_⟩
      · intro s hs hne
        exact List.mem_cons_of_mem _ ((mem_stateParams o s).mpr ⟨hs, hne⟩)
      · intro s hs
        rcases List.mem_cons.mp hs with heq | hmemtail
        · have := congrArg Prod.fst heq
          simp at this
        · exact (mem_stateParams o s).mp hmemtail
    · rw [he] at hresp
      cases hresp

/-- A decoded state blob with a non-empty inner state. -/
def sampleInfoState : OAuthReqInfo := { sampleInfo with state := some "xyz" }

/-- A login body whose decoded state carries the non-empty inner state. -/
def sampleBodyState : LoginBody :=
  { sampleBody with state := StateField.parsed sampleInfoState }

/-- Witness for the amended C7: with inner state `xyz`, the redirect
carries the code and echoes the state. -/
theorem c7_redirect_carries_code_and_nonempty_state_witness :
    sampleInfoState.redirectUri = some "https://app.example/cb" ∧
    ("code", "code-1") ∈ [(("code" : String), ("code-1" : String)),
      ("state", "xyz")] ∧
    (∀ s, sampleInfoState.state = some s → s ≠ "" →
      ("state", s) ∈ [(("code" : String), ("code-1" : String)),
        ("state", "xyz")]) ∧
    (∀ s, ("state", s) ∈ [(("code" : String), ("code-1" : String)),
        ("state", "xyz")] →
      sampleInfoState.state = some s ∧ s ≠ "") :=
  c7_redirect_carries_code_and_nonempty_state sampleCtx sampleBodyState
    sampleDB sampleInfoState "https://app.example/cb"
    [("code", "code-1"), ("state", "xyz")] rfl (by decide)

/-- Claim C3: under the data-model invariant that every registered
redirect URI is a parseable absolute URL, the login handler is atomic with
respect to visible state: a run that persists an authorization code returns
the success redirect, and a run that returns an error response leaves the
persisted codes untouched. -/
theorem c3_no_persist_then_error
    (ctx : Ctx) (body : LoginBody) (db : DB)
    (hwf : ∀ app ∈ db.apps, ∀ u ∈ splitNewline app.redirect_uri,
      isValidURL u = true) :
    ((login ctx body db).db.codes ≠ db.codes →
      ∃ base ps,
        (login ctx body db).response = Response.oauthRedirect base ps) ∧
    (isSuccess (login ctx body db).response = false →
      (login ctx body db).db.codes = db.codes) := by
  rcases login_shape ctx body db with ⟨hdb, _, _⟩ |
    ⟨o, app, user, h1, h2, h3, h4, h5, h6, h7, hdb, htr, hresp⟩
  · constructor
    · intro hne
      exact absurd (by rw [hdb]) hne
    · intro _
      rw [hdb]
  · have h3' : db.apps.find?
        (fun r => r.client_id == ((o.clientId).getD "")) = some app := h3
    have happmem : app ∈ db.apps := List.mem_of_find?_eq_some h3'
    rcases hresp with ⟨u, hru, hvu, he⟩ | ⟨he, hbad⟩
    · constructor
      · intro _
        exact ⟨u, ("code", ctx.freshCode) :: stateParams o, he⟩
      · intro hfail
        rw [he] at hfail
        simp [isSuccess] at hfail
    · exfalso
      obtain ⟨u, hru, humem⟩ := (redirectUriAllowed_iff _ _).mp h6
      have hru' : o.redirectUri = some u := hru
      have humem' : u ∈ splitNewline app.redirect_uri := humem
      have hvalid := hwf app happmem u humem'
      rw [hbad u hru'] at hvalid
      cases hvalid

/-- Witness for C3 at the sample store (whose registered URIs are valid
URLs): the sample run persisted a code and indeed returned a redirect. -/
theorem c3_no_persist_then_error_witness :
    ((login sampleCtx sampleBody sampleDB).db.codes ≠ sampleDB.codes →
      ∃ base ps, (login sampleCtx sampleBody sampleDB).response =
        Response.oauthRedirect base ps) ∧
    (isSuccess (login sampleCtx sampleBody sampleDB).response = false →
      (login sampleCtx sampleBody sampleDB).db.codes = sampleDB.codes) :=
  c3_no_persist_then_error sampleCtx sampleBody sampleDB (by decide)

/-- A login body with an existing username but a wrong password. -/
def sampleBodyWrongPw : LoginBody :=
  { username := some "alice", password := some "wrong"
    state := StateField.missing }

/-- A store with no users or applications. -/
def emptyDB : DB := { users := [], apps := [], codes := [] }

/-- Claim C9: a login attempt for a nonexistent username and one for an
existing username with a wrong password produce the identical failure
response — status 401 with message `Invalid username or password` — so the
response does not reveal whether the account exists. -/
theorem c9_login_failure_indistinguishable
    (ctx₁ ctx₂ : Ctx) (body : LoginBody) (db₁ db₂ : DB) (user : UserRec)
    (hb : (truthy body.username && truthy body.password) = true)
    (hc1 : ctx₁.connectOk = true) (hc2 : ctx₂.connectOk = true)
    (h1 : db₁.getUserByUsername ((body.username).getD "") = none)
    (h2 : db₂.getUserByUsername ((body.username).getD "") = some user)
    (hv : ctx₂.verify ((body.password).getD "") user.password_hash = false) :
    (login ctx₁ body db₁).response = (login ctx₂ body db₂).response ∧
    (login ctx₁ body db₁).response =
      Response.json 401 "Invalid username or password" := by
  have e1 : (login ctx₁ body db₁).response =
      Response.json 401 "Invalid username or password" := by
    unfold login loginInner
    simp [hb, hc1, h1]
  have e2 : (login ctx₂ body db₂).response =
      Response.json 401 "Invalid username or password" := by
    unfold login loginInner
    simp [hb, hc2, h2, hv]
  exact ⟨e1.trans e2.symm, e1⟩

/-- Witness for C9: unknown user `alice` against the empty store versus
known `alice` with the wrong password against the sample store yield the
same 401 response. -/
theorem c9_login_failure_indistinguishable_witness :
    (login sampleCtx sampleBodyWrongPw emptyDB).response =
      (login sampleCtx sampleBodyWrongPw sampleDB).response ∧
    (login sampleCtx sampleBodyWrongPw emptyDB).response =
      Response.json 401 "Invalid username or password" :=
  c9_login_failure_indistinguishable sampleCtx sampleCtx sampleBodyWrongPw
    emptyDB sampleDB sampleUser (by decide) rfl rfl
    (by decide) (by decide) (by decide)

/-- Branch characterization of the registration handler's inner body:
either a duplicate was found (400, store untouched, no creation event), or
both duplicate checks passed and exactly the new user row was appended. -/
theorem registerInner_shape (ctx : RCtx) (body : RegisterBody) (db : DB)
    (resp : Response) (dbf : DB) (evs : List Event)
    (h : registerInner ctx body db = (resp, dbf, evs)) :
    ((∃ m, resp = Response.json 400 m) ∧ dbf = db ∧ evs = [] ∧
      (db.getUserByUsername ((body.username).getD "") ≠ none ∨
       db.getUserByEmail ((body.email).getD "") ≠ none)) ∨
    (db.getUserByUsername ((body.username).getD "") = none ∧
     db.getUserByEmail ((body.email).getD "") = none ∧
     resp = Response.json 200 "User created successfully" ∧
     dbf = { db with users := db.users ++
        [{ id := ctx.newId, username := (body.username).getD ""
           email := (body.email).getD "", name := (body.name).getD ""
           password_hash := ctx.hash ((body.password).getD "") }] } ∧
     evs = [Event.createUser]) := by
  unfold registerInner at h
  split at h
  · rename_i u hu
    simp only [Prod.mk.injEq] at h
    obtain ⟨rfl, rfl, rfl⟩ := h
    refine Or.inl ⟨⟨_, rfl⟩, rfl, rfl, Or.inl ?_⟩
    rw [hu]
    simp
  · rename_i hu
    split at h
    · rename_i u he
      simp only [Prod.mk.injEq] at h
      obtain ⟨rfl, rfl, rfl⟩ := h
      refine Or.inl ⟨⟨_, rfl⟩, rfl, rfl, Or.inr ?_⟩
      rw [he]
      simp
    · rename_i he
      simp only [Prod.mk.injEq] at h
      obtain ⟨rfl, rfl, rfl⟩ := h
      exact Or.inr ⟨hu, he, rfl, rfl, rfl⟩

/-- Claim C8: for every login request and every registration request, the
trace of store events is properly scoped — either no connection is opened,
or exactly one is opened and the last event releases it, on success,
validation failure and propagated error alike. -/
theorem c8_connection_released_on_every_path
    (ctx : Ctx) (rctx : RCtx) (body : LoginBody) (rbody : RegisterBody)
    (db db2 : DB) :
    scopedTrace (login ctx body db).trace = true ∧
    scopedTrace (register rctx rbody db2).trace = true := by
  constructor
  · by_cases hb : (truthy body.username && truthy body.password) = true
    · by_cases hc : ctx.connectOk = true
      · rcases hLI : loginInner ctx body db with ⟨resp, dbf, evs⟩
        have hL : (login ctx body db).trace =
            Event.connect :: (evs ++ [Event.disconnect]) := by
          unfold login
          simp [hb, hc, hLI]
        rw [hL]
        rcases loginInner_shape ctx body db resp dbf evs hLI with
          ⟨_, _, rfl⟩ |
          ⟨o, app, user, _, _, _, _, _, _, _, _, hevs, _⟩
        · rfl
        · rw [hevs]
          rfl
      · have hL : (login ctx body db).trace = [] := by
          unfold login
          simp [hb, hc]
        rw [hL]
        rfl
    · have hL : (login ctx body db).trace = [] := by
        unfold login
        simp [hb]
      rw [hL]
      rfl
  · by_cases hb : (truthy rbody.username && truthy rbody.email &&
        truthy rbody.name && truthy rbody.password) = true
    · by_cases hp : ((rbody.password).getD "").length < 6
      · have hL : (register rctx rbody db2).trace = [] := by
          unfold register
          simp [hb, hp]
        rw [hL]
        rfl
      · by_cases hc : rctx.connectOk = true
        · rcases hRI : registerInner rctx rbody db2 with ⟨resp, dbf, evs⟩
          have hL : (register rctx rbody db2).trace =
              Event.connect :: (evs ++ [Event.disconnect]) := by
            unfold register
            simp [hb, hp, hc, hRI]
          rw [hL]
          rcases registerInner_shape rctx rbody db2 resp dbf evs hRI with
            ⟨_, _, rfl, _⟩ | ⟨_, _, _, _, rfl⟩
          · rfl
          · rfl
        · have hL : (register rctx rbody db2).trace = [] := by
            unfold register
            simp [hb, hp, hc]
          rw [hL]
          rfl
    · have hL : (register rctx rbody db2).trace = [] := by
        unfold register
        simp [hb]
      rw [hL]
      rfl

/-- Claim C10: with a working store connection, the registration endpoint
creates a user exactly when all four fields are present (non-empty), the
password has length at least six, and no existing user has the same
username or email; in every other case it returns a 400 response and the
user table is unchanged. -/
theorem c10_register_validation (ctx : RCtx) (body : RegisterBody) (db : DB)
    (hc : ctx.connectOk = true) :
    (((truthy body.username && truthy body.email && truthy body.name &&
        truthy body.password) = true ∧
      ¬((body.password).getD "").length < 6 ∧
      db.getUserByUsername ((body.username).getD "") = none ∧
      db.getUserByEmail ((body.email).getD "") = none) →
      ((register ctx body db).response =
        Response.json 200 "User created successfully" ∧
       (register ctx body db).db.users = db.users ++
        [{ id := ctx.newId, username := (body.username).getD ""
           email := (body.email).getD "", name := (body.name).getD ""
           password_hash := ctx.hash ((body.password).getD "") }])) ∧
    (¬((truthy body.username && truthy body.email && truthy body.name &&
        truthy body.password) = true ∧
      ¬((body.password).getD "").length < 6 ∧
      db.getUserByUsername ((body.username).getD "") = none ∧
      db.getUserByEmail ((body.email).getD "") = none) →
      ((∃ m, (register ctx body db).response = Response.json 400 m) ∧
       (register ctx body db).db.users = db.users)) := by
  constructor
  · rintro ⟨hb, hp, hu, he⟩
    constructor
    · unfold register registerInner
      simp [hb, hp, hc, hu, he]
    · unfold register registerInner
      simp [hb, hp, hc, hu, he]
  · intro hneg
    by_cases hb : (truthy body.username && truthy body.email &&
        truthy body.name && truthy body.password) = true
    · by_cases hp : ((body.password).getD "").length < 6
      · constructor
        · refine ⟨"Password must be at least 6 characters long", ?_⟩
          unfold register
          simp [hb, hp]
        · unfold register
          simp [hb, hp]
      · cases hu : db.getUserByUsername ((body.username).getD "") with
        | some u =>
          constructor
          · refine ⟨"Username already exists", ?_⟩
            unfold register registerInner
            simp [hb, hp, hc, hu]
          · unfold register registerInner
            simp [hb, hp, hc, hu]
        | none =>
          cases he : db.getUserByEmail ((body.email).getD "") with
          | some u =>
            constructor
            · refine ⟨"Email already exists", ?_⟩
              unfold register registerInner
              simp [hb, hp, hc, hu, he]
            · unfold register registerInner
              simp [hb, hp, hc, hu, he]
          | none => exact absurd ⟨hb, hp, hu, he⟩ hneg
    · constructor
      · refine ⟨"All fields are required", ?_⟩
        unfold register
        simp [hb]
      · unfold register
        simp [hb]

/-- A sample registration environment. -/
def sampleRCtx : RCtx :=
  { connectOk := true, hash := fun p => p ++ "-h", newId := "u2" }

/-- A sample valid registration body for a fresh user. -/
def sampleRegBody : RegisterBody :=
  { username := some "bob", email := some "bob@example.com"
    name := some "Bob", password := some "secret1" }

/-- Witness for C10: registering fresh user `bob` against the sample store
succeeds and appends exactly the new row. -/
theorem c10_register_validation_witness :
    (register sampleRCtx sampleRegBody sampleDB).response =
      Response.json 200 "User created successfully" ∧
    (register sampleRCtx sampleRegBody sampleDB).db.users =
      sampleDB.users ++
        [{ id := "u2", username := "bob", email := "bob@example.com"
           name := "Bob", password_hash := sampleRCtx.hash "secret1" }] :=
  (c10_register_validation sampleRCtx sampleRegBody sampleDB rfl).1
    ⟨by decide, by decide, by decide, by decide⟩

end MCPAuth
